import Mathlib

/-!
Shallow embedding of the classification, trend, rate and history logic of the
Health_monitor repository: `system_health_monitor.py` (terminal dashboard,
class `ComprehensiveSystemHealthMonitor`) and `system_health_01.py` (GUI,
class `SystemHealthGUI`).

Modelling conventions:
* Python floats are embedded as rationals (`ℚ`); the float literals `1.1` and
  `0.9` of `analyze_trend` are embedded as `11/10` and `9/10`.
* Absent readings (Python `None`) are `Option.none`.
* Metric kinds are the Python strings themselves (`"cpu"`, `"memory"`, ...),
  dispatched by string match exactly as the source's `if/elif` chains.
* Stateful history mutation (`self.health_history[...].append`, `pop(0)`)
  becomes explicit state passing on Lean lists (oldest first, as in the
  Python lists).
-/

/-- The five health-status labels of class `HealthStatus` (present with the
same names and string values in both source files). -/
inductive HealthStatus
  | CRITICAL
  | WARNING
  | CAUTION
  | HEALTHY
  | UNKNOWN
deriving DecidableEq, Repr

/-- The string value each `HealthStatus` constant carries in the source
(`CRITICAL = "CRITICAL"`, etc.); used to compare the terminal classifier's
status against the GUI classifier's returned string. -/
def HealthStatus.label : HealthStatus → String
  | .CRITICAL => "CRITICAL"
  | .WARNING => "WARNING"
  | .CAUTION => "CAUTION"
  | .HEALTHY => "HEALTHY"
  | .UNKNOWN => "UNKNOWN"

/-- Severity order on the bands: HEALTHY < CAUTION < WARNING < CRITICAL.
UNKNOWN is not a severity level (spec §3); it is only ever produced for
absent values, which monotonicity statements exclude, so its numeric value
here (0) is never relied upon. -/
def severity : HealthStatus → ℕ
  | .HEALTHY => 0
  | .CAUTION => 1
  | .WARNING => 2
  | .CRITICAL => 3
  | .UNKNOWN => 0

/-- The five distinct return values of `analyze_trend` in
`system_health_monitor.py`: `"No data"`, `"Insufficient data"`,
`"📈 Increasing"`, `"📉 Decreasing"`, `"→ Stable"`. -/
inductive TrendResult
  | noData
  | insufficientData
  | increasing
  | decreasing
  | stable
deriving DecidableEq, Repr

/-- The spec's four-valued TrendVerdict domain
{INSUFFICIENT_DATA, INCREASING, DECREASING, STABLE}. -/
inductive TrendVerdict
  | INSUFFICIENT_DATA
  | INCREASING
  | DECREASING
  | STABLE
deriving DecidableEq, Repr

/-- Abstraction from the source's five return values to the spec's four
verdicts: the source's `"No data"` (absent current value) and
`"Insufficient data"` (short history) are both "not enough data to tell",
and the spec's §7 classifies an absent reading's trend as
INSUFFICIENT_DATA, so both map there. -/
def TrendResult.toVerdict : TrendResult → TrendVerdict
  | .noData => .INSUFFICIENT_DATA
  | .insufficientData => .INSUFFICIENT_DATA
  | .increasing => .INCREASING
  | .decreasing => .DECREASING
  | .stable => .STABLE

namespace SystemHealthMonitor

/-! Threshold table `ComprehensiveSystemHealthMonitor.THRESHOLDS`
(system_health_monitor.py lines 40-70). -/

namespace THRESHOLDS

def cpu_healthy : ℚ := 30
def cpu_caution : ℚ := 60
def cpu_warning : ℚ := 80
def cpu_critical : ℚ := 90

def memory_healthy : ℚ := 50
def memory_caution : ℚ := 70
def memory_warning : ℚ := 85
def memory_critical : ℚ := 95

def disk_healthy : ℚ := 50
def disk_caution : ℚ := 70
def disk_warning : ℚ := 85
def disk_critical : ℚ := 95

def temp_healthy : ℚ := 50
def temp_caution : ℚ := 70
def temp_warning : ℚ := 85
def temp_critical : ℚ := 100

def battery_healthy : ℚ := 80
def battery_caution : ℚ := 50
def battery_warning : ℚ := 20
def battery_critical : ℚ := 10

end THRESHOLDS

def COLOR_CRITICAL : String := "\x1B[91m"
def COLOR_WARNING : String := "\x1B[93m"
def COLOR_CAUTION : String := "\x1B[94m"
def COLOR_HEALTHY : String := "\x1B[92m"
def COLOR_UNKNOWN : String := "\x1B[90m"

/-- `get_status_and_color(self, metric_type, value)`
(system_health_monitor.py lines 91-146): `None` short-circuits to UNKNOWN;
ascending kinds compare `value >= cutoff` critical-first; battery compares
`value <= cutoff` critical-first; an unrecognized kind falls through to
HEALTHY (line 146). -/
def get_status_and_color (metric_type : String) (value : Option ℚ) :
    HealthStatus × String :=
  match value with
  | none => (HealthStatus.UNKNOWN, COLOR_UNKNOWN)
  | some v =>
    match metric_type with
    | "cpu" =>
      if v ≥ THRESHOLDS.cpu_critical then (HealthStatus.CRITICAL, COLOR_CRITICAL)
      else if v ≥ THRESHOLDS.cpu_warning then (HealthStatus.WARNING, COLOR_WARNING)
      else if v ≥ THRESHOLDS.cpu_caution then (HealthStatus.CAUTION, COLOR_CAUTION)
      else (HealthStatus.HEALTHY, COLOR_HEALTHY)
    | "memory" =>
      if v ≥ THRESHOLDS.memory_critical then (HealthStatus.CRITICAL, COLOR_CRITICAL)
      else if v ≥ THRESHOLDS.memory_warning then (HealthStatus.WARNING, COLOR_WARNING)
      else if v ≥ THRESHOLDS.memory_caution then (HealthStatus.CAUTION, COLOR_CAUTION)
      else (HealthStatus.HEALTHY, COLOR_HEALTHY)
    | "disk" =>
      if v ≥ THRESHOLDS.disk_critical then (HealthStatus.CRITICAL, COLOR_CRITICAL)
      else if v ≥ THRESHOLDS.disk_warning then (HealthStatus.WARNING, COLOR_WARNING)
      else if v ≥ THRESHOLDS.disk_caution then (HealthStatus.CAUTION, COLOR_CAUTION)
      else (HealthStatus.HEALTHY, COLOR_HEALTHY)
    | "temperature" =>
      if v ≥ THRESHOLDS.temp_critical then (HealthStatus.CRITICAL, COLOR_CRITICAL)
      else if v ≥ THRESHOLDS.temp_warning then (HealthStatus.WARNING, COLOR_WARNING)
      else if v ≥ THRESHOLDS.temp_caution then (HealthStatus.CAUTION, COLOR_CAUTION)
      else (HealthStatus.HEALTHY, COLOR_HEALTHY)
    | "battery" =>
      if v ≤ THRESHOLDS.battery_critical then (HealthStatus.CRITICAL, COLOR_CRITICAL)
      else if v ≤ THRESHOLDS.battery_warning then (HealthStatus.WARNING, COLOR_WARNING)
      else if v ≤ THRESHOLDS.battery_caution then (HealthStatus.CAUTION, COLOR_CAUTION)
      else (HealthStatus.HEALTHY, COLOR_HEALTHY)
    | _ => (HealthStatus.HEALTHY, COLOR_HEALTHY)

/-- `analyze_trend(self, metric_type, current_value)`
(system_health_monitor.py lines 211-228), with the metric's history list
(`self.health_history[metric_type]`) passed explicitly. Note that in the
driver (`display_dashboard`) this is called *after* the current value was
appended to the history, so `history` here already contains the current
value as its last element; `history[-3:]` is `history.drop (length - 3)`
and `sum(history[-3:]) / min(3, len(history))` divides by
`min 3 history.length`. -/
def analyze_trend (history : List ℚ) (current_value : Option ℚ) : TrendResult :=
  match current_value with
  | none => TrendResult.noData
  | some current =>
    if history.length < 2 then TrendResult.insufficientData
    else
      let avg_recent := (history.drop (history.length - 3)).sum /
        ((min 3 history.length : ℕ) : ℚ)
      if current > avg_recent * (11 / 10) then TrendResult.increasing
      else if current < avg_recent * (9 / 10) then TrendResult.decreasing
      else TrendResult.stable

/-- Disk read rate (system_health_monitor.py line 314):
`(current_disk_io.read_bytes - self.prev_disk_io.read_bytes) / time_delta
if time_delta > 0 else 0`. -/
def disk_read_speed (prev_read_bytes read_bytes time_delta : ℚ) : ℚ :=
  if time_delta > 0 then (read_bytes - prev_read_bytes) / time_delta else 0

/-- Disk write rate (system_health_monitor.py line 315). -/
def disk_write_speed (prev_write_bytes write_bytes time_delta : ℚ) : ℚ :=
  if time_delta > 0 then (write_bytes - prev_write_bytes) / time_delta else 0

/-- Network upload rate (system_health_monitor.py line 340). -/
def upload_speed (prev_bytes_sent bytes_sent time_delta : ℚ) : ℚ :=
  if time_delta > 0 then (bytes_sent - prev_bytes_sent) / time_delta else 0

/-- Network download rate (system_health_monitor.py line 341). -/
def download_speed (prev_bytes_recv bytes_recv time_delta : ℚ) : ℚ :=
  if time_delta > 0 then (bytes_recv - prev_bytes_recv) / time_delta else 0

/-- `self.history_max = 5` (system_health_monitor.py line 85). -/
def history_max : ℕ := 5

/-- The history-append idiom used for every trending metric
(e.g. lines 237-239, 242-244, 291-293, 319-321):
`history.append(x); if len(history) > self.history_max: history.pop(0)`.
Lists are oldest-first, so `pop(0)` drops the head (`List.tail`). -/
def pushHistory (history : List ℚ) (x : ℚ) : List ℚ :=
  let appended := history ++ [x]
  if appended.length > history_max then appended.tail else appended

/-- The `self.health_history` dictionary (system_health_monitor.py
lines 79-84): one rolling list per trending metric kind. -/
structure HealthHistory where
  cpu : List ℚ
  memory : List ℚ
  disk : List ℚ
  temperature : List ℚ
deriving DecidableEq, Repr

/-- The history effect of `get_cpu_metrics` (system_health_monitor.py
lines 237-244): the CPU average is always appended; the temperature is
appended only under `if temp is not None`. -/
def get_cpu_metrics_update (h : HealthHistory) (cpu_avg : ℚ)
    (temp : Option ℚ) : HealthHistory :=
  let h1 := { h with cpu := pushHistory h.cpu cpu_avg }
  match temp with
  | some t => { h1 with temperature := pushHistory h1.temperature t }
  | none => h1

/-- One CPU step of the sampling cycle as driven by `display_dashboard`
(lines 523 then 551-552): `get_cpu_metrics` appends the average to the CPU
history, then the classifier and `analyze_trend` run on that average with
the already-updated history. -/
def cpuCycle (history : List ℚ) (v : ℚ) :
    List ℚ × HealthStatus × TrendResult :=
  let history := pushHistory history v
  (history, (get_status_and_color "cpu" (some v)).1,
    analyze_trend history (some v))

/-- Iterated CPU cycles over a sequence of CPU averages, collecting the
(band, trend) pair of each cycle. -/
def cpuRun : List ℚ → List ℚ → List (HealthStatus × TrendResult)
  | _, [] => []
  | history, v :: rest =>
    let step := cpuCycle history v
    (step.2.1, step.2.2) :: cpuRun step.1 rest

end SystemHealthMonitor

namespace SystemHealthGUI

/-! Threshold table `SystemHealthGUI.THRESHOLDS`
(system_health_01.py lines 41-47). -/

namespace THRESHOLDS

def cpu_critical : ℚ := 90
def cpu_warning : ℚ := 80
def cpu_caution : ℚ := 60
def memory_critical : ℚ := 95
def memory_warning : ℚ := 85
def memory_caution : ℚ := 70
def disk_critical : ℚ := 95
def disk_warning : ℚ := 85
def disk_caution : ℚ := 70
def temp_critical : ℚ := 100
def temp_warning : ℚ := 85
def temp_caution : ℚ := 70
def battery_critical : ℚ := 10
def battery_warning : ℚ := 20
def battery_caution : ℚ := 50

end THRESHOLDS

/-- `get_status_text(self, metric_type, value)` (system_health_01.py
lines 210-242): `None` yields "UNKNOWN"; branches exist for `"cpu"`,
`metric_type in ["memory", "disk"]` (with the per-kind threshold keys) and
`"battery"`; every other kind — including `"temperature"`, which has no
branch in this function — falls through to the final `return "HEALTHY"`
(line 242). -/
def get_status_text (metric_type : String) (value : Option ℚ) : String :=
  match value with
  | none => "UNKNOWN"
  | some v =>
    match metric_type with
    | "cpu" =>
      if v ≥ THRESHOLDS.cpu_critical then "CRITICAL"
      else if v ≥ THRESHOLDS.cpu_warning then "WARNING"
      else if v ≥ THRESHOLDS.cpu_caution then "CAUTION"
      else "HEALTHY"
    | "memory" =>
      if v ≥ THRESHOLDS.memory_critical then "CRITICAL"
      else if v ≥ THRESHOLDS.memory_warning then "WARNING"
      else if v ≥ THRESHOLDS.memory_caution then "CAUTION"
      else "HEALTHY"
    | "disk" =>
      if v ≥ THRESHOLDS.disk_critical then "CRITICAL"
      else if v ≥ THRESHOLDS.disk_warning then "WARNING"
      else if v ≥ THRESHOLDS.disk_caution then "CAUTION"
      else "HEALTHY"
    | "battery" =>
      if v ≤ THRESHOLDS.battery_critical then "CRITICAL"
      else if v ≤ THRESHOLDS.battery_warning then "WARNING"
      else if v ≤ THRESHOLDS.battery_caution then "CAUTION"
      else "HEALTHY"
    | _ => "HEALTHY"

/-- Disk read rate (system_health_01.py line 306), identical in form to the
terminal monitor's. -/
def disk_read_speed (prev_read_bytes read_bytes time_delta : ℚ) : ℚ :=
  if time_delta > 0 then (read_bytes - prev_read_bytes) / time_delta else 0

/-- Disk write rate (system_health_01.py line 307). -/
def disk_write_speed (prev_write_bytes write_bytes time_delta : ℚ) : ℚ :=
  if time_delta > 0 then (write_bytes - prev_write_bytes) / time_delta else 0

/-- Network upload rate (system_health_01.py line 326). -/
def upload_speed (prev_bytes_sent bytes_sent time_delta : ℚ) : ℚ :=
  if time_delta > 0 then (bytes_sent - prev_bytes_sent) / time_delta else 0

/-- Network download rate (system_health_01.py line 327). -/
def download_speed (prev_bytes_recv bytes_recv time_delta : ℚ) : ℚ :=
  if time_delta > 0 then (bytes_recv - prev_bytes_recv) / time_delta else 0

end SystemHealthGUI

/-- Spec-side trend rule, written from the spec's words (spec §4.3 and the
C3 claim): with at least 2 recorded entries (including the one just
appended), compare the current value against the mean of up to the 3 most
recent entries *strictly preceding* the current one, with a ±10% deadband.
`preceding` is the metric's history before the current value was appended.
Declared only to be compared with the source's `analyze_trend`. -/
def trendSpecStrict (preceding : List ℚ) (current : ℚ) : TrendVerdict :=
  if preceding.length + 1 < 2 then TrendVerdict.INSUFFICIENT_DATA
  else
    let avg := (preceding.drop (preceding.length - 3)).sum /
      ((min 3 preceding.length : ℕ) : ℚ)
    if current > avg * (11 / 10) then TrendVerdict.INCREASING
    else if current < avg * (9 / 10) then TrendVerdict.DECREASING
    else TrendVerdict.STABLE

/-- Amended trend rule: the same ±10% deadband comparison, but the mean is
taken over the up-to-3 most recent entries of the updated history
*including* the just-appended current value (the source appends the current
value to the history before calling `analyze_trend`, so `history[-3:]`
contains it). `window` is the history with the current value already
appended, before any capacity eviction. -/
def trendAmended (window : List ℚ) (current : ℚ) : TrendVerdict :=
  if window.length < 2 then TrendVerdict.INSUFFICIENT_DATA
  else
    let avg := (window.drop (window.length - 3)).sum /
      ((min 3 window.length : ℕ) : ℚ)
    if current > avg * (11 / 10) then TrendVerdict.INCREASING
    else if current < avg * (9 / 10) then TrendVerdict.DECREASING
    else TrendVerdict.STABLE

/-!
## Helper equation lemmas

Per-kind unfoldings of the two classifiers, proved by `rfl`; they let later
proofs case on the threshold comparisons without re-reducing the string
dispatch each time.
-/

theorem monitor_cpu_eq (v : ℚ) :
    SystemHealthMonitor.get_status_and_color "cpu" (some v) =
      (if v ≥ 90 then (HealthStatus.CRITICAL, SystemHealthMonitor.COLOR_CRITICAL)
       else if v ≥ 80 then (HealthStatus.WARNING, SystemHealthMonitor.COLOR_WARNING)
       else if v ≥ 60 then (HealthStatus.CAUTION, SystemHealthMonitor.COLOR_CAUTION)
       else (HealthStatus.HEALTHY, SystemHealthMonitor.COLOR_HEALTHY)) := rfl

theorem monitor_memory_eq (v : ℚ) :
    SystemHealthMonitor.get_status_and_color "memory" (some v) =
      (if v ≥ 95 then (HealthStatus.CRITICAL, SystemHealthMonitor.COLOR_CRITICAL)
       else if v ≥ 85 then (HealthStatus.WARNING, SystemHealthMonitor.COLOR_WARNING)
       else if v ≥ 70 then (HealthStatus.CAUTION, SystemHealthMonitor.COLOR_CAUTION)
       else (HealthStatus.HEALTHY, SystemHealthMonitor.COLOR_HEALTHY)) := rfl

theorem monitor_disk_eq (v : ℚ) :
    SystemHealthMonitor.get_status_and_color "disk" (some v) =
      (if v ≥ 95 then (HealthStatus.CRITICAL, SystemHealthMonitor.COLOR_CRITICAL)
       else if v ≥ 85 then (HealthStatus.WARNING, SystemHealthMonitor.COLOR_WARNING)
       else if v ≥ 70 then (HealthStatus.CAUTION, SystemHealthMonitor.COLOR_CAUTION)
       else (HealthStatus.HEALTHY, SystemHealthMonitor.COLOR_HEALTHY)) := rfl

theorem monitor_temperature_eq (v : ℚ) :
    SystemHealthMonitor.get_status_and_color "temperature" (some v) =
      (if v ≥ 100 then (HealthStatus.CRITICAL, SystemHealthMonitor.COLOR_CRITICAL)
       else if v ≥ 85 then (HealthStatus.WARNING, SystemHealthMonitor.COLOR_WARNING)
       else if v ≥ 70 then (HealthStatus.CAUTION, SystemHealthMonitor.COLOR_CAUTION)
       else (HealthStatus.HEALTHY, SystemHealthMonitor.COLOR_HEALTHY)) := rfl

theorem monitor_battery_eq (v : ℚ) :
    SystemHealthMonitor.get_status_and_color "battery" (some v) =
      (if v ≤ 10 then (HealthStatus.CRITICAL, SystemHealthMonitor.COLOR_CRITICAL)
       else if v ≤ 20 then (HealthStatus.WARNING, SystemHealthMonitor.COLOR_WARNING)
       else if v ≤ 50 then (HealthStatus.CAUTION, SystemHealthMonitor.COLOR_CAUTION)
       else (HealthStatus.HEALTHY, SystemHealthMonitor.COLOR_HEALTHY)) := rfl

theorem gui_cpu_eq (v : ℚ) :
    SystemHealthGUI.get_status_text "cpu" (some v) =
      (if v ≥ 90 then "CRITICAL" else if v ≥ 80 then "WARNING"
       else if v ≥ 60 then "CAUTION" else "HEALTHY") := rfl

theorem gui_memory_eq (v : ℚ) :
    SystemHealthGUI.get_status_text "memory" (some v) =
      (if v ≥ 95 then "CRITICAL" else if v ≥ 85 then "WARNING"
       else if v ≥ 70 then "CAUTION" else "HEALTHY") := rfl

theorem gui_disk_eq (v : ℚ) :
    SystemHealthGUI.get_status_text "disk" (some v) =
      (if v ≥ 95 then "CRITICAL" else if v ≥ 85 then "WARNING"
       else if v ≥ 70 then "CAUTION" else "HEALTHY") := rfl

theorem gui_battery_eq (v : ℚ) :
    SystemHealthGUI.get_status_text "battery" (some v) =
      (if v ≤ 10 then "CRITICAL" else if v ≤ 20 then "WARNING"
       else if v ≤ 50 then "CAUTION" else "HEALTHY") := rfl

theorem gui_temperature_eq (v : ℚ) :
    SystemHealthGUI.get_status_text "temperature" (some v) = "HEALTHY" := rfl

/-!
## Claim theorems
-/

/-- C1 counterexample: with elapsed time 2 > 0 and a counter reset from a
prior value of 100 down to a current value of 40, every one of the eight
rate computations (disk read/write and network upload/download, in both
source files) returns the negative value -30, not 0 as the claim states. -/
theorem C1_counterexample :
    SystemHealthMonitor.disk_read_speed 100 40 2 = -30 ∧
    SystemHealthMonitor.disk_read_speed 100 40 2 ≠ 0 ∧
    SystemHealthMonitor.disk_write_speed 100 40 2 ≠ 0 ∧
    SystemHealthMonitor.upload_speed 100 40 2 ≠ 0 ∧
    SystemHealthMonitor.download_speed 100 40 2 ≠ 0 ∧
    SystemHealthGUI.disk_read_speed 100 40 2 ≠ 0 ∧
    SystemHealthGUI.disk_write_speed 100 40 2 ≠ 0 ∧
    SystemHealthGUI.upload_speed 100 40 2 ≠ 0 ∧
    SystemHealthGUI.download_speed 100 40 2 ≠ 0 := by
  refine ⟨?_, ?_, ?_, ?_, ?_, ?_, ?_, ?_, ?_⟩ <;>
    norm_num [SystemHealthMonitor.disk_read_speed,
      SystemHealthMonitor.disk_write_speed, SystemHealthMonitor.upload_speed,
      SystemHealthMonitor.download_speed, SystemHealthGUI.disk_read_speed,
      SystemHealthGUI.disk_write_speed, SystemHealthGUI.upload_speed,
      SystemHealthGUI.download_speed]

/-- C1 amended: for elapsed_seconds > 0 the rate computations apply no
counter-reset clamp — each returns exactly
(current − prior) / elapsed_seconds, which is negative when
current < prior; only elapsed_seconds ≤ 0 yields 0. Holds for the disk
read/write and network upload/download rates of both source files. -/
theorem C1_amended_no_reset_clamp (prior current time_delta : ℚ)
    (hpos : 0 < time_delta) (hreset : current < prior) :
    SystemHealthMonitor.disk_read_speed prior current time_delta =
      (current - prior) / time_delta ∧
    SystemHealthMonitor.disk_write_speed prior current time_delta =
      (current - prior) / time_delta ∧
    SystemHealthMonitor.upload_speed prior current time_delta =
      (current - prior) / time_delta ∧
    SystemHealthMonitor.download_speed prior current time_delta =
      (current - prior) / time_delta ∧
    SystemHealthGUI.disk_read_speed prior current time_delta =
      (current - prior) / time_delta ∧
    SystemHealthGUI.disk_write_speed prior current time_delta =
      (current - prior) / time_delta ∧
    SystemHealthGUI.upload_speed prior current time_delta =
      (current - prior) / time_delta ∧
    SystemHealthGUI.download_speed prior current time_delta =
      (current - prior) / time_delta ∧
    (current - prior) / time_delta < 0 := by
  refine ⟨?_, ?_, ?_, ?_, ?_, ?_, ?_, ?_, ?_⟩
  all_goals first
  | exact div_neg_of_neg_of_pos (by linarith) hpos
  | simp [SystemHealthMonitor.disk_read_speed,
      SystemHealthMonitor.disk_write_speed, SystemHealthMonitor.upload_speed,
      SystemHealthMonitor.download_speed, SystemHealthGUI.disk_read_speed,
      SystemHealthGUI.disk_write_speed, SystemHealthGUI.upload_speed,
      SystemHealthGUI.download_speed, hpos]

/-- C1 witness: the amended statement instantiated at prior = 100,
current = 40, elapsed = 2. -/
theorem C1_witness :
    (0 : ℚ) < 2 ∧ (40 : ℚ) < 100 ∧
    (SystemHealthMonitor.disk_read_speed 100 40 2 = (40 - 100) / 2 ∧
     SystemHealthMonitor.disk_write_speed 100 40 2 = (40 - 100) / 2 ∧
     SystemHealthMonitor.upload_speed 100 40 2 = (40 - 100) / 2 ∧
     SystemHealthMonitor.download_speed 100 40 2 = (40 - 100) / 2 ∧
     SystemHealthGUI.disk_read_speed 100 40 2 = (40 - 100) / 2 ∧
     SystemHealthGUI.disk_write_speed 100 40 2 = (40 - 100) / 2 ∧
     SystemHealthGUI.upload_speed 100 40 2 = (40 - 100) / 2 ∧
     SystemHealthGUI.download_speed 100 40 2 = (40 - 100) / 2 ∧
     ((40 : ℚ) - 100) / 2 < 0) :=
  ⟨by norm_num, by norm_num,
    C1_amended_no_reset_clamp 100 40 2 (by norm_num) (by norm_num)⟩

/-- C2 counterexample: feeding the CPU averages [50, 55, 58, 70] through
the classifier-and-trend pipeline does not yield the band sequence
[HEALTHY, HEALTHY, HEALTHY, WARNING] claimed: the 4th band is CAUTION,
because 70 is below the CPU warning cutoff 80 (it only reaches the caution
cutoff 60). -/
theorem C2_counterexample :
    (SystemHealthMonitor.cpuRun [] [50, 55, 58, 70]).map Prod.fst ≠
      [HealthStatus.HEALTHY, HealthStatus.HEALTHY, HealthStatus.HEALTHY,
        HealthStatus.WARNING] := by
  norm_num [SystemHealthMonitor.cpuRun, SystemHealthMonitor.cpuCycle,
    SystemHealthMonitor.pushHistory, SystemHealthMonitor.analyze_trend,
    SystemHealthMonitor.get_status_and_color, SystemHealthMonitor.history_max,
    SystemHealthMonitor.THRESHOLDS.cpu_critical,
    SystemHealthMonitor.THRESHOLDS.cpu_warning,
    SystemHealthMonitor.THRESHOLDS.cpu_caution]
  decide

/-- C2 amended: the CPU-average sequence [50, 55, 58, 70] with the default
thresholds and history capacity 5 yields the band sequence
[HEALTHY, HEALTHY, HEALTHY, CAUTION] (not WARNING at the 4th sample), and
the trend computed at the 4th sample is INCREASING as claimed
(70 > 1.1 × mean of [55, 58, 70] = 67.1). -/
theorem C2_amended_pipeline :
    (SystemHealthMonitor.cpuRun [] [50, 55, 58, 70]).map Prod.fst =
      [HealthStatus.HEALTHY, HealthStatus.HEALTHY, HealthStatus.HEALTHY,
        HealthStatus.CAUTION] ∧
    ((SystemHealthMonitor.cpuRun [] [50, 55, 58, 70]).map
        (fun p => p.2.toVerdict)).getLast? = some TrendVerdict.INCREASING := by
  constructor <;>
    norm_num [SystemHealthMonitor.cpuRun, SystemHealthMonitor.cpuCycle,
      SystemHealthMonitor.pushHistory, SystemHealthMonitor.analyze_trend,
      SystemHealthMonitor.get_status_and_color, SystemHealthMonitor.history_max,
      SystemHealthMonitor.THRESHOLDS.cpu_critical,
      SystemHealthMonitor.THRESHOLDS.cpu_warning,
      SystemHealthMonitor.THRESHOLDS.cpu_caution, TrendResult.toVerdict]

/-- C3 counterexample: with recorded history [60, 60, 60] and new value 67,
the claim's rule (mean of the up-to-3 entries strictly preceding the
current value = 60; 67 > 1.1 × 60 = 66) demands INCREASING, but the source
appends first and averages over `history[-3:]` = [60, 60, 67]
(mean 187/3 ≈ 62.33; 67 lies inside the ±10% deadband), so it returns
Stable. -/
theorem C3_counterexample :
    (SystemHealthMonitor.analyze_trend
        (SystemHealthMonitor.pushHistory [60, 60, 60] 67)
        (some 67)).toVerdict = TrendVerdict.STABLE ∧
    trendSpecStrict [60, 60, 60] 67 = TrendVerdict.INCREASING := by
  constructor <;>
    norm_num [SystemHealthMonitor.analyze_trend,
      SystemHealthMonitor.pushHistory, SystemHealthMonitor.history_max,
      trendSpecStrict, TrendResult.toVerdict]

/-- Helper: on any history, `analyze_trend` on a present value computes
exactly the amended deadband rule (the short-history branches of the two
definitions also agree through the verdict abstraction). -/
theorem analyze_trend_toVerdict_eq (w : List ℚ) (c : ℚ) :
    (SystemHealthMonitor.analyze_trend w (some c)).toVerdict =
      trendAmended w c := by
  simp only [SystemHealthMonitor.analyze_trend, trendAmended]
  split_ifs <;> rfl

/-- Helper: dropping the oldest entry of a history of length at least 6
does not change the trend result, because only the last 3 entries and the
fact that the length is at least 3 matter. -/
theorem analyze_trend_tail (w : List ℚ) (c : ℚ) (hw : 6 ≤ w.length) :
    SystemHealthMonitor.analyze_trend w.tail (some c) =
      SystemHealthMonitor.analyze_trend w (some c) := by
  have htl : w.tail.length = w.length - 1 := List.length_tail w
  have hdrop : w.tail.drop (w.tail.length - 3) = w.drop (w.length - 3) := by
    rw [htl, ← List.drop_one, List.drop_drop]
    congr 1
    omega
  have hmin : (min 3 w.tail.length : ℕ) = (min 3 w.length : ℕ) := by
    rw [htl, Nat.min_eq_left (by omega), Nat.min_eq_left (by omega)]
  simp only [SystemHealthMonitor.analyze_trend, hdrop, hmin]
  split_ifs <;> first | rfl | omega

/-- C3 amended: for every prior history and every current value, the
code's verdict equals the deadband rule taken over the mean of the up-to-3
most recent entries *including* the just-appended current value — not the
entries strictly preceding it (with INSUFFICIENT_DATA when the updated
window still has fewer than 2 entries). Capacity eviction by `pushHistory`
does not affect the verdict. -/
theorem C3_amended_mean_includes_current (h : List ℚ) (current : ℚ) :
    (SystemHealthMonitor.analyze_trend
        (SystemHealthMonitor.pushHistory h current)
        (some current)).toVerdict = trendAmended (h ++ [current]) current := by
  have hw : (h ++ [current]).length = h.length + 1 := by simp
  by_cases hgt :
      (h ++ [current]).length > SystemHealthMonitor.history_max
  · have hpush : SystemHealthMonitor.pushHistory h current =
        (h ++ [current]).tail := by
      simp only [SystemHealthMonitor.pushHistory]
      rw [if_pos hgt]
    have h6 : 6 ≤ (h ++ [current]).length := by
      simp only [SystemHealthMonitor.history_max] at hgt
      omega
    rw [hpush, analyze_trend_tail _ _ h6]
    exact analyze_trend_toVerdict_eq _ _
  · have hpush : SystemHealthMonitor.pushHistory h current =
        h ++ [current] := by
      simp only [SystemHealthMonitor.pushHistory]
      rw [if_neg hgt]
    rw [hpush]
    exact analyze_trend_toVerdict_eq _ _

/-- C4: for every metric kind (any dispatch string) and every history
depth, an absent current reading (None) classifies as UNKNOWN and yields
the trend verdict INSUFFICIENT_DATA (the source's "No data" return, which
is the spec's INSUFFICIENT_DATA; the GUI classifier likewise returns
"UNKNOWN"). -/
theorem C4_absent_reading (metric_type : String) (history : List ℚ) :
    (SystemHealthMonitor.get_status_and_color metric_type none).1 =
      HealthStatus.UNKNOWN ∧
    (SystemHealthMonitor.analyze_trend history none).toVerdict =
      TrendVerdict.INSUFFICIENT_DATA ∧
    SystemHealthGUI.get_status_text metric_type none = "UNKNOWN" :=
  ⟨rfl, rfl, rfl⟩

/-- C5: for every metric kind (in particular each recognized one) and
every input, the terminal classifier returns UNKNOWN — and the GUI
classifier returns "UNKNOWN" — exactly when the input value is absent; a
present numeric value never classifies as UNKNOWN. -/
theorem C5_unknown_iff_absent (metric_type : String) (value : Option ℚ) :
    ((SystemHealthMonitor.get_status_and_color metric_type value).1 =
        HealthStatus.UNKNOWN ↔ value = none) ∧
    (SystemHealthGUI.get_status_text metric_type value = "UNKNOWN" ↔
        value = none) := by
  rcases value with _ | v
  · exact ⟨by simp [SystemHealthMonitor.get_status_and_color],
      by simp [SystemHealthGUI.get_status_text]⟩
  · constructor
    · simp only [SystemHealthMonitor.get_status_and_color]
      split <;> first | (split_ifs <;> simp) | simp
    · simp only [SystemHealthGUI.get_status_text]
      split <;> first | (split_ifs <;> simp) | simp

/-- Helper: one append keeps a within-capacity history within capacity. -/
theorem pushHistory_length_le (h : List ℚ) (x : ℚ)
    (hle : h.length ≤ SystemHealthMonitor.history_max) :
    (SystemHealthMonitor.pushHistory h x).length ≤
      SystemHealthMonitor.history_max := by
  simp only [SystemHealthMonitor.pushHistory]
  split_ifs with hgt
  · simp only [List.length_tail, List.length_append, List.length_cons,
      List.length_nil] at *
    omega
  · simp only [List.length_append, List.length_cons, List.length_nil] at *
    omega

/-- Helper: iterating appends from a within-capacity start stays within
capacity. -/
theorem foldl_pushHistory_length_le (xs : List ℚ) :
    ∀ h : List ℚ, h.length ≤ SystemHealthMonitor.history_max →
      (xs.foldl SystemHealthMonitor.pushHistory h).length ≤
        SystemHealthMonitor.history_max := by
  induction xs with
  | nil => intro h hh; simpa using hh
  | cons x xs ih =>
    intro h hh
    exact ih _ (pushHistory_length_le h x hh)

/-- Helper: an append at exactly full capacity evicts the oldest entry. -/
theorem pushHistory_evict (h : List ℚ) (x : ℚ)
    (hlen : h.length = SystemHealthMonitor.history_max) :
    SystemHealthMonitor.pushHistory h x = h.tail ++ [x] := by
  rcases h with _ | ⟨a, t⟩
  · simp [SystemHealthMonitor.history_max] at hlen
  · simp only [SystemHealthMonitor.pushHistory]
    rw [if_pos]
    · simp
    · simp only [List.length_append, List.length_cons, List.length_nil,
        SystemHealthMonitor.history_max]
      simp only [List.length_cons, SystemHealthMonitor.history_max] at hlen
      omega

/-- C6: starting from the empty history, any number of appends leaves the
window's length at most the capacity 5; a single append preserves the
capacity bound; and an append at full capacity evicts the oldest (head)
entry, FIFO. -/
theorem C6_history_capacity :
    (∀ xs : List ℚ,
      (xs.foldl SystemHealthMonitor.pushHistory []).length ≤
        SystemHealthMonitor.history_max) ∧
    (∀ (h : List ℚ) (x : ℚ),
      h.length ≤ SystemHealthMonitor.history_max →
        (SystemHealthMonitor.pushHistory h x).length ≤
          SystemHealthMonitor.history_max) ∧
    (∀ (h : List ℚ) (x : ℚ),
      h.length = SystemHealthMonitor.history_max →
        SystemHealthMonitor.pushHistory h x = h.tail ++ [x]) :=
  ⟨fun xs => foldl_pushHistory_length_le xs [] (by simp),
   pushHistory_length_le, pushHistory_evict⟩

/-- C6 witness: six appends starting empty stay within capacity 5, and an
append onto the full window [1, 2, 3, 4, 5] evicts the oldest entry 1. -/
theorem C6_witness :
    (([1, 2, 3, 4, 5, 6] : List ℚ).foldl
        SystemHealthMonitor.pushHistory []).length ≤
      SystemHealthMonitor.history_max ∧
    ([1, 2, 3, 4, 5] : List ℚ).length ≤ SystemHealthMonitor.history_max ∧
    (SystemHealthMonitor.pushHistory [1, 2, 3, 4, 5] 6).length ≤
      SystemHealthMonitor.history_max ∧
    ([1, 2, 3, 4, 5] : List ℚ).length = SystemHealthMonitor.history_max ∧
    SystemHealthMonitor.pushHistory [1, 2, 3, 4, 5] 6 =
      ([1, 2, 3, 4, 5] : List ℚ).tail ++ [6] :=
  ⟨C6_history_capacity.1 [1, 2, 3, 4, 5, 6], by decide,
   C6_history_capacity.2.1 [1, 2, 3, 4, 5] 6 (by decide), by decide,
   C6_history_capacity.2.2 [1, 2, 3, 4, 5] 6 (by decide)⟩

/-- C7: for each ascending metric kind (cpu, memory, disk, temperature)
and present values v1 ≤ v2, the severity of the band at v2 is at least the
severity of the band at v1. -/
theorem C7_ascending_monotone (v1 v2 : ℚ) (h12 : v1 ≤ v2) :
    severity (SystemHealthMonitor.get_status_and_color "cpu" (some v1)).1 ≤
      severity (SystemHealthMonitor.get_status_and_color "cpu" (some v2)).1 ∧
    severity (SystemHealthMonitor.get_status_and_color "memory" (some v1)).1 ≤
      severity (SystemHealthMonitor.get_status_and_color "memory" (some v2)).1 ∧
    severity (SystemHealthMonitor.get_status_and_color "disk" (some v1)).1 ≤
      severity (SystemHealthMonitor.get_status_and_color "disk" (some v2)).1 ∧
    severity (SystemHealthMonitor.get_status_and_color "temperature" (some v1)).1 ≤
      severity (SystemHealthMonitor.get_status_and_color "temperature" (some v2)).1 := by
  refine ⟨?_, ?_, ?_, ?_⟩ <;>
    simp only [monitor_cpu_eq, monitor_memory_eq, monitor_disk_eq,
      monitor_temperature_eq] <;>
    split_ifs <;> simp only [severity] <;> first | omega | (exfalso ; linarith)

/-- C7 witness: the monotonicity statement instantiated at v1 = 10,
v2 = 96. -/
theorem C7_witness :
    (10 : ℚ) ≤ 96 ∧
    (severity (SystemHealthMonitor.get_status_and_color "cpu" (some 10)).1 ≤
      severity (SystemHealthMonitor.get_status_and_color "cpu" (some 96)).1 ∧
    severity (SystemHealthMonitor.get_status_and_color "memory" (some 10)).1 ≤
      severity (SystemHealthMonitor.get_status_and_color "memory" (some 96)).1 ∧
    severity (SystemHealthMonitor.get_status_and_color "disk" (some 10)).1 ≤
      severity (SystemHealthMonitor.get_status_and_color "disk" (some 96)).1 ∧
    severity (SystemHealthMonitor.get_status_and_color "temperature" (some 10)).1 ≤
      severity (SystemHealthMonitor.get_status_and_color "temperature" (some 96)).1) :=
  ⟨by norm_num, C7_ascending_monotone 10 96 (by norm_num)⟩

/-- C8: for elapsed time ≤ 0 every rate computation of the terminal
monitor returns 0, regardless of the counter values. -/
theorem C8_nonpositive_elapsed (prev cur time_delta : ℚ)
    (h : time_delta ≤ 0) :
    SystemHealthMonitor.disk_read_speed prev cur time_delta = 0 ∧
    SystemHealthMonitor.disk_write_speed prev cur time_delta = 0 ∧
    SystemHealthMonitor.upload_speed prev cur time_delta = 0 ∧
    SystemHealthMonitor.download_speed prev cur time_delta = 0 := by
  have hng : ¬ time_delta > 0 := not_lt.mpr h
  refine ⟨?_, ?_, ?_, ?_⟩ <;>
    simp [SystemHealthMonitor.disk_read_speed,
      SystemHealthMonitor.disk_write_speed, SystemHealthMonitor.upload_speed,
      SystemHealthMonitor.download_speed, hng]

/-- C8 witness: two back-to-back cycles with elapsed time 0 and arbitrary
counter movement (from 1000000 to 5000000) produce rate 0. -/
theorem C8_witness :
    (0 : ℚ) ≤ 0 ∧
    (SystemHealthMonitor.disk_read_speed 1000000 5000000 0 = 0 ∧
     SystemHealthMonitor.disk_write_speed 1000000 5000000 0 = 0 ∧
     SystemHealthMonitor.upload_speed 1000000 5000000 0 = 0 ∧
     SystemHealthMonitor.download_speed 1000000 5000000 0 = 0) :=
  ⟨le_refl 0, C8_nonpositive_elapsed 1000000 5000000 0 (le_refl 0)⟩

/-- C9 counterexample: at a present temperature of 120 the terminal
classifier answers CRITICAL but the GUI classifier answers HEALTHY — its
`get_status_text` has no temperature branch and falls through to the
default return — so the two classifiers do not agree on every recognized
metric kind. -/
theorem C9_counterexample :
    (SystemHealthMonitor.get_status_and_color "temperature"
        (some 120)).1.label ≠
      SystemHealthGUI.get_status_text "temperature" (some 120) := by
  rw [monitor_temperature_eq, gui_temperature_eq]
  norm_num [HealthStatus.label]
  decide

/-- C9 amended: the terminal and GUI classifiers agree for the kinds cpu,
memory, disk and battery on every input, and for temperature on an absent
input; for a present temperature value the GUI classifier always returns
HEALTHY (it has no temperature branch), so the two agree on present
temperatures only when the terminal band is HEALTHY. -/
theorem C9_amended_agreement (value : Option ℚ) (x : ℚ) :
    (SystemHealthMonitor.get_status_and_color "cpu" value).1.label =
      SystemHealthGUI.get_status_text "cpu" value ∧
    (SystemHealthMonitor.get_status_and_color "memory" value).1.label =
      SystemHealthGUI.get_status_text "memory" value ∧
    (SystemHealthMonitor.get_status_and_color "disk" value).1.label =
      SystemHealthGUI.get_status_text "disk" value ∧
    (SystemHealthMonitor.get_status_and_color "battery" value).1.label =
      SystemHealthGUI.get_status_text "battery" value ∧
    (SystemHealthMonitor.get_status_and_color "temperature" none).1.label =
      SystemHealthGUI.get_status_text "temperature" none ∧
    SystemHealthGUI.get_status_text "temperature" (some x) = "HEALTHY" := by
  refine ⟨?_, ?_, ?_, ?_, rfl, rfl⟩
  all_goals rcases value with _ | v
  all_goals first
    | rfl
    | (simp only [monitor_cpu_eq, gui_cpu_eq, monitor_memory_eq,
        gui_memory_eq, monitor_disk_eq, gui_disk_eq, monitor_battery_eq,
        gui_battery_eq]
       split_ifs <;> rfl)

/-- C10: the history effect of `get_cpu_metrics` appends to the
temperature window only under `if temp is not None`: an absent temperature
leaves the temperature window unchanged, and a present one appends exactly
that reading. -/
theorem C10_temperature_frame (h : SystemHealthMonitor.HealthHistory)
    (cpu_avg : ℚ) :
    (SystemHealthMonitor.get_cpu_metrics_update h cpu_avg none).temperature =
      h.temperature ∧
    ∀ t : ℚ,
      (SystemHealthMonitor.get_cpu_metrics_update h cpu_avg
          (some t)).temperature =
        SystemHealthMonitor.pushHistory h.temperature t :=
  ⟨rfl, fun _ => rfl⟩
